import Mathlib

/-!
Shallow embedding of the wattmeter kernel module (src/wattmeter-km.c) and
verification of its natural-language specification.

The module keeps its state in file-scope globals:
  numWattHours : int            (the spec calls it pulseCount)
  ledOn        : bool           (the spec calls it outputMirror)
  isDebounce   : bool           (the spec calls it debounceEnabled)
  ts_last, ts_current, ts_diff : struct timespec
plus the debounce window programmed into the GPIO hardware and the level
driven on the LED output line.  We model the whole of this as one record
`MeterState` and each C function as a pure state transformer.  Machine
integers are modelled as `Int` with explicit two's-complement wrapping
where overflow can occur (the kernel is built with wrapping semantics for
signed arithmetic).
-/

/-- `struct timespec` from `linux/time.h`: seconds and nanoseconds, both
signed (`time_t` / `long`). -/
structure Timespec where
  tv_sec : Int
  tv_nsec : Int
  deriving DecidableEq

/-- Nanoseconds per second, `NSEC_PER_SEC` in the kernel. -/
def NSEC_PER_SEC : Int := 1000000000

/-- The total value of a timespec in nanoseconds. -/
def tsVal (t : Timespec) : Int := t.tv_sec * NSEC_PER_SEC + t.tv_nsec

/-- A timespec is normalized when its nanosecond part lies in
`[0, NSEC_PER_SEC)`; every timespec produced by the kernel clock and by
`set_normalized_timespec` is. -/
def Timespec.Normalized (t : Timespec) : Prop :=
  0 ≤ t.tv_nsec ∧ t.tv_nsec < NSEC_PER_SEC

instance (t : Timespec) : Decidable t.Normalized := by
  unfold Timespec.Normalized; infer_instance

/-- Modelled from `linux/time.h` (external dependency of the module):
`set_normalized_timespec(ts, sec, nsec)` repeatedly moves whole seconds out
of `nsec` until `0 <= nsec < NSEC_PER_SEC`.  The loop computes exactly the
euclidean quotient and remainder of `nsec` by `NSEC_PER_SEC`. -/
def set_normalized_timespec (sec nsec : Int) : Timespec :=
  ⟨sec + nsec / NSEC_PER_SEC, nsec % NSEC_PER_SEC⟩

/-- Modelled from `linux/time.h`: `timespec_sub(lhs, rhs)` normalizes the
componentwise difference. -/
def timespec_sub (lhs rhs : Timespec) : Timespec :=
  set_normalized_timespec (lhs.tv_sec - rhs.tv_sec) (lhs.tv_nsec - rhs.tv_nsec)

/-- Two's-complement wrap of an `Int` to the signed 32-bit range, the
behaviour of `int` arithmetic on the target (kernel code is compiled with
wrapping signed arithmetic). -/
def wrap32 (n : Int) : Int := (n + 2147483648) % 4294967296 - 2147483648

/-- The value range of a C `int` on the target. -/
def Int32Range (n : Int) : Prop := -2147483648 ≤ n ∧ n < 2147483648

instance (n : Int) : Decidable (Int32Range n) := by
  unfold Int32Range; infer_instance

/-- `DEBOUNCE_TIME` -- the default bounce time, 200 ms
(src/wattmeter-km.c line 19). -/
def DEBOUNCE_TIME : Nat := 200

/-- The mutable state of the module: the file-scope globals of
src/wattmeter-km.c together with the two pieces of hardware state the code
drives (the level on the LED output line and the debounce window programmed
for the meter input line).  `ts_current` is a scratch global written by the
IRQ handler; the data model of the spec (MeterState) consists of
`numWattHours` (pulseCount), `ts_last` (lastTimestamp), `ts_diff`
(lastInterval), `ledOn` (outputMirror) and `isDebounce` (debounceEnabled). -/
structure MeterState where
  numWattHours : Int
  ledOn : Bool
  isDebounce : Bool
  ts_last : Timespec
  ts_current : Timespec
  ts_diff : Timespec
  ledLine : Bool
  debounceWindow : Nat
  deriving DecidableEq

/-! ## Decimal rendering and scanning

`sprintf` with `%d` / `%lu` conversions and `sscanf` with the module's
`"%du"` format, modelled at the character level. -/

/-- The character for a single decimal digit `n < 10`. -/
def digitChar (n : Nat) : Char := Char.ofNat (48 + n)

/-- Digit-emitting loop for `decRepr`, structurally recursive on a fuel
bound so that it reduces during kernel evaluation; `decRepr` always calls
it with enough fuel, and `decRepr_eq` below recovers the natural recursion
equation. -/
def decReprAux : Nat → Nat → List Char
  | 0, _ => []
  | fuel + 1, n =>
    if n < 10 then [digitChar n]
    else decReprAux fuel (n / 10) ++ [digitChar (n % 10)]

/-- Decimal digits of a natural number, most significant first
(the rendering `%u`-style conversions produce). -/
def decRepr (n : Nat) : List Char := decReprAux (n + 1) n

/-- Rendering of a C `int` by `%d`: a minus sign for negatives, then the
decimal digits of the magnitude. -/
def intRepr (n : Int) : List Char :=
  if n < 0 then List.cons (Char.ofNat 45) (decRepr (-n).toNat) else decRepr n.toNat

/-- Rendering of a value by `%lu`.  The arguments the module passes are
non-negative (clock readings and their residues), where `%lu` prints the
plain decimal digits; `Int.toNat` is exact there. -/
def luRepr (n : Int) : List Char := decRepr n.toNat

/-- Zero padding to a minimum width: the effect of a precision on an
integer conversion such as `%.2lu` or `%.9lu`. -/
def zeroPadChars (w : Nat) (ds : List Char) : List Char :=
  List.replicate (w - ds.length) (Char.ofNat 48) ++ ds

/-- `%.wlu`: decimal digits of the value, zero-padded to at least `w`. -/
def fmtLu (w : Nat) (n : Int) : List Char := zeroPadChars w (luRepr n)

/-- The numeric value of a decimal digit character. -/
def digitVal (c : Char) : Nat := c.toNat - 48

/-- Split a character list into its maximal leading run of decimal digits
and the rest (the way a `%d` conversion consumes its digits). -/
def takeDigits : List Char → List Char × List Char
  | [] => ([], [])
  | c :: cs =>
    if c.isDigit then
      let p := takeDigits cs
      (c :: p.1, p.2)
    else ([], c :: cs)

/-- The number denoted by a digit string, most significant digit first. -/
def digitsToNat (ds : List Char) : Nat :=
  ds.foldl (fun a c => 10 * a + digitVal c) 0

/-- The `%d` conversion of `sscanf`: skip leading whitespace, accept an
optional sign, then require at least one decimal digit; on a matching
failure nothing is assigned (`none`).  The module's format string `"%du"`
is this conversion followed by a literal `u`, which cannot affect the
assigned value. -/
def scanInt (cs : List Char) : Option Int :=
  let t := cs.dropWhile Char.isWhitespace
  match t with
  | [] => none
  | c :: rest =>
    if c = Char.ofNat 45 then
      let p := takeDigits rest
      if p.1.isEmpty then none else some (-(digitsToNat p.1 : Int))
    else if c = Char.ofNat 43 then
      let p := takeDigits rest
      if p.1.isEmpty then none else some ((digitsToNat p.1 : Int))
    else
      let p := takeDigits (c :: rest)
      if p.1.isEmpty then none else some ((digitsToNat p.1 : Int))

/-- `sscanf(buf, "%du", &x)` as an optional parsed value. -/
def sscanf_d (buf : String) : Option Int := scanInt buf.data

/-! ## The sysfs accessors, the IRQ handler and module init
(src/wattmeter-km.c). -/

/-- `numWattHours_show`: `sprintf(buf, "%d\n", numWattHours)`. -/
def numWattHours_show (s : MeterState) : String :=
  String.mk (intRepr s.numWattHours) ++ "\n"

/-- `numWattHours_store`: `sscanf(buf, "%du", &numWattHours); return count;`.
When the conversion fails, `numWattHours` is left unassigned; the return
value is `count` in every case. -/
def numWattHours_store (buf : String) (count : Nat) (s : MeterState) :
    MeterState × Nat :=
  match sscanf_d buf with
  | some v => ({ s with numWattHours := v }, count)
  | none => (s, count)

/-- `ledOn_show`: `sprintf(buf, "%d\n", ledOn)` (a bool prints as 0 or 1). -/
def ledOn_show (s : MeterState) : String :=
  String.mk (intRepr (if s.ledOn then 1 else 0)) ++ "\n"

/-- `lastTime_show`:
`sprintf(buf, "%.2lu:%.2lu:%.2lu:%.9lu \n", (ts_last.tv_sec/3600)%24,
(ts_last.tv_sec/60) % 60, ts_last.tv_sec % 60, ts_last.tv_nsec)`.
`Int.tdiv` / `Int.tmod` are C's truncating division and remainder. -/
def lastTime_show (s : MeterState) : String :=
  String.mk
    (fmtLu 2 (((s.ts_last.tv_sec).tdiv 3600).tmod 24) ++ [Char.ofNat 58] ++
     fmtLu 2 (((s.ts_last.tv_sec).tdiv 60).tmod 60) ++ [Char.ofNat 58] ++
     fmtLu 2 ((s.ts_last.tv_sec).tmod 60) ++ [Char.ofNat 58] ++
     fmtLu 9 s.ts_last.tv_nsec ++ [Char.ofNat 32, Char.ofNat 10])

/-- `diffTime_show`: `sprintf(buf, "%lu.%.9lu\n", ts_diff.tv_sec,
ts_diff.tv_nsec)`. -/
def diffTime_show (s : MeterState) : String :=
  String.mk
    (luRepr s.ts_diff.tv_sec ++ [Char.ofNat 46] ++
     fmtLu 9 s.ts_diff.tv_nsec ++ [Char.ofNat 10])

/-- `isDebounce_show`: `sprintf(buf, "%d\n", isDebounce)`. -/
def isDebounce_show (s : MeterState) : String :=
  String.mk (intRepr (if s.isDebounce then 1 else 0)) ++ "\n"

/-- `isDebounce_store`.  The C code reads `temp` with
`sscanf(buf, "%du", &temp)` where `temp` is an uninitialized stack
variable: when the conversion fails `temp` keeps its indeterminate value,
modelled by the extra parameter `temp0`.  It then programs the debounce
window to 0, assigns `isDebounce = temp` (bool conversion: nonzero is
true), and programs `DEBOUNCE_TIME` or 0 according to the new flag;
it returns `count` in every case. -/
def isDebounce_store (temp0 : Int) (buf : String) (count : Nat)
    (s : MeterState) : MeterState × Nat :=
  let temp : Int :=
    match sscanf_d buf with
    | some v => v
    | none => temp0
  let s1 := { s with debounceWindow := 0 }
  let s2 := { s1 with isDebounce := temp ≠ 0 }
  let s3 :=
    if s2.isDebounce then { s2 with debounceWindow := DEBOUNCE_TIME }
    else { s2 with debounceWindow := 0 }
  (s3, count)

/-- `tomasgpio_irq_handler`, the pulse handler: invert `ledOn` and drive
the LED line, read the clock into `ts_current`, set
`ts_diff = timespec_sub(ts_current, ts_last)`, set `ts_last = ts_current`,
and increment `numWattHours`.  `now` is the clock source reading taken by
`getnstimeofday` during this invocation. -/
def tomasgpio_irq_handler (now : Timespec) (s : MeterState) : MeterState :=
  let led := !s.ledOn
  let s1 := { s with ledOn := led, ledLine := led }
  let s2 := { s1 with ts_current := now }
  let s3 := { s2 with ts_diff := timespec_sub s2.ts_current s2.ts_last }
  let s4 := { s3 with ts_last := s3.ts_current }
  { s4 with numWattHours := wrap32 (s4.numWattHours + 1) }

/-- `tomasMeter_init`, the successful path (the failure paths return before
touching any meter state): the globals start at their static initializers
(`numWattHours = 0`, `ledOn = 0`, `isDebounce = 1`, zeroed timespecs), then
init sets `ts_last` to the current time, `ts_diff` to
`timespec_sub(ts_last, ts_last)`, turns the LED on (`ledOn = true`, output
line driven high) and programs the 200 ms debounce window. -/
def tomasMeter_init (now : Timespec) : MeterState :=
  { numWattHours := 0
    ledOn := true
    isDebounce := true
    ts_last := now
    ts_current := ⟨0, 0⟩
    ts_diff := timespec_sub now now
    ledLine := true
    debounceWindow := DEBOUNCE_TIME }

/-- States reachable from module start by any interleaving of pulse-handler
invocations and attribute writes.  Attribute reads (`*_show`) are pure and
do not change the state, so they need no step. -/
inductive Reach : MeterState → Prop where
  | init : ∀ now, Reach (tomasMeter_init now)
  | pulse : ∀ s now, Reach s → Reach (tomasgpio_irq_handler now s)
  | writeCount : ∀ s buf count, Reach s →
      Reach (numWattHours_store buf count s).1
  | writeDebounce : ∀ s temp0 buf count, Reach s →
      Reach (isDebounce_store temp0 buf count s).1

/-- States reachable without any write to the pulse count: pulse-handler
invocations, attribute reads, and debounce writes only. -/
inductive ReachNC : MeterState → Prop where
  | init : ∀ now, ReachNC (tomasMeter_init now)
  | pulse : ∀ s now, ReachNC s → ReachNC (tomasgpio_irq_handler now s)
  | writeDebounce : ∀ s temp0 buf count, ReachNC s →
      ReachNC (isDebounce_store temp0 buf count s).1

/-- The timestamp format stated by the spec: `HH:MM:SS:NNNNNNNNN`, `HH` is
`(seconds/3600) mod 24`, `MM` is minutes, `SS` is seconds, each zero-padded
to two digits, `NNNNNNNNN` the nanosecond part zero-padded to nine digits,
and no other characters. -/
def specTimestamp (sec nsec : Nat) : String :=
  String.mk
    (zeroPadChars 2 (decRepr ((sec / 3600) % 24)) ++ [Char.ofNat 58] ++
     zeroPadChars 2 (decRepr ((sec / 60) % 60)) ++ [Char.ofNat 58] ++
     zeroPadChars 2 (decRepr (sec % 60)) ++ [Char.ofNat 58] ++
     zeroPadChars 9 (decRepr nsec))

/-! ## Arithmetic lemmas about the embedded operations. -/

/-- Normalization is value-preserving: `timespec_sub` computes the exact
difference of the two timespec values. -/
theorem tsVal_timespec_sub (a b : Timespec) :
    tsVal (timespec_sub a b) = tsVal a - tsVal b := by
  simp only [tsVal, timespec_sub, set_normalized_timespec, NSEC_PER_SEC]
  omega

/-- `timespec_sub` always returns a normalized timespec. -/
theorem timespec_sub_normalized (a b : Timespec) :
    (timespec_sub a b).Normalized := by
  simp only [timespec_sub, set_normalized_timespec, Timespec.Normalized,
    NSEC_PER_SEC]
  omega

/-- `wrap32` lands in the `int` range. -/
theorem wrap32_mem_range (n : Int) : Int32Range (wrap32 n) := by
  simp only [wrap32, Int32Range]
  omega

/-- `wrap32` is the identity on values already in the `int` range. -/
theorem wrap32_eq_self (n : Int) (h : Int32Range n) : wrap32 n = n := by
  simp only [wrap32, Int32Range] at *
  omega

/-- `wrap32` preserves parity (the wrap subtracts the even constant 2^32). -/
theorem wrap32_parity (n : Int) : 2 ∣ wrap32 n ↔ 2 ∣ n := by
  simp only [wrap32]
  omega

/-! ## Decimal print/scan roundtrip. -/

/-- The fuel argument of `decReprAux` is irrelevant once it exceeds the
number being rendered. -/
theorem decReprAux_congr (f : Nat) : ∀ g n, n < f → n < g →
    decReprAux f n = decReprAux g n := by
  induction f with
  | zero => intro g n h; omega
  | succ f ih =>
    intro g n hf hg
    cases g with
    | zero => omega
    | succ g =>
      show decReprAux (f + 1) n = decReprAux (g + 1) n
      unfold decReprAux
      by_cases h : n < 10
      · simp [if_pos h]
      · simp only [if_neg h]
        rw [ih g (n / 10) (by omega) (by omega)]

/-- The recursion equation of `decRepr`. -/
theorem decRepr_eq (n : Nat) :
    decRepr n = if n < 10 then [digitChar n]
      else decRepr (n / 10) ++ [digitChar (n % 10)] := by
  show decReprAux (n + 1) n = _
  unfold decReprAux
  by_cases h : n < 10
  · simp [if_pos h]
  · simp only [if_neg h]
    rw [decReprAux_congr n (n / 10 + 1) (n / 10) (by omega) (by omega)]
    rfl

theorem digitChar_isDigit (n : Nat) (h : n < 10) :
    (digitChar n).isDigit = true := by
  interval_cases n <;> decide

theorem digitVal_digitChar (n : Nat) (h : n < 10) :
    digitVal (digitChar n) = n := by
  interval_cases n <;> decide

/-- Every character `decRepr` emits is a decimal digit. -/
theorem decRepr_digits (n : Nat) : ∀ c ∈ decRepr n, c.isDigit = true := by
  induction n using Nat.strong_induction_on with
  | _ n ih =>
    rw [decRepr_eq]
    by_cases h : n < 10
    · simp only [if_pos h, List.mem_singleton]
      intro c hc
      exact hc ▸ digitChar_isDigit n h
    · simp only [if_neg h]
      intro c hc
      rcases List.mem_append.1 hc with hm | hm
      · exact ih (n / 10) (Nat.div_lt_self (by omega) (by omega)) c hm
      · rw [List.mem_singleton.1 hm]
        exact digitChar_isDigit _ (Nat.mod_lt _ (by omega))

theorem decRepr_ne_nil (n : Nat) : decRepr n ≠ [] := by
  rw [decRepr_eq]
  by_cases h : n < 10
  · simp [if_pos h]
  · simp [if_neg h]

/-- A digit character is not whitespace. -/
theorem isDigit_not_whitespace (c : Char) (h : c.isDigit = true) :
    c.isWhitespace = false := by
  unfold Char.isWhitespace
  by_contra hw
  simp only [Bool.not_eq_false, Bool.or_eq_true, decide_eq_true_eq] at hw
  rcases hw with ((h1 | h1) | h1) | h1 <;> subst h1 <;> exact absurd h (by decide)

/-- `takeDigits` consumes an all-digit list whole. -/
theorem takeDigits_all (l : List Char) (h : ∀ c ∈ l, c.isDigit = true) :
    takeDigits l = (l, []) := by
  induction l with
  | nil => rfl
  | cons c cs ih =>
    unfold takeDigits
    rw [if_pos (h c (List.mem_cons_self c cs)), ih fun x hx => h x (List.mem_cons_of_mem c hx)]

theorem digitsToNat_append (ds : List Char) (c : Char) :
    digitsToNat (ds ++ [c]) = 10 * digitsToNat ds + digitVal c := by
  unfold digitsToNat
  rw [List.foldl_append]
  rfl

/-- Printing then scanning a natural number is the identity. -/
theorem digitsToNat_decRepr (n : Nat) : digitsToNat (decRepr n) = n := by
  induction n using Nat.strong_induction_on with
  | _ n ih =>
    rw [decRepr_eq]
    by_cases h : n < 10
    · simp only [if_pos h]
      show 10 * 0 + digitVal (digitChar n) = n
      rw [digitVal_digitChar n h]
      omega
    · simp only [if_neg h]
      rw [digitsToNat_append, ih (n / 10) (Nat.div_lt_self (by omega) (by omega)),
        digitVal_digitChar _ (Nat.mod_lt _ (by omega))]
      omega

/-- An all-digit list passes `dropWhile isWhitespace` untouched. -/
theorem dropWhile_ws_decRepr (n : Nat) :
    (decRepr n).dropWhile Char.isWhitespace = decRepr n := by
  cases hd : decRepr n with
  | nil => rfl
  | cons c cs =>
    rw [List.dropWhile_cons,
      isDigit_not_whitespace c (decRepr_digits n c (hd ▸ List.mem_cons_self c cs))]
    simp

/-- The head of `decRepr` is a digit, hence neither a minus nor a plus sign. -/
theorem decRepr_head_not_sign (n : Nat) (c : Char) (cs : List Char)
    (hd : decRepr n = c :: cs) : c ≠ Char.ofNat 45 ∧ c ≠ Char.ofNat 43 := by
  have hdig : c.isDigit = true := decRepr_digits n c (hd ▸ List.mem_cons_self c cs)
  constructor <;> intro h <;> subst h <;> exact absurd hdig (by decide)

/-- Scanning the `%u`-style rendering of a natural number yields it back. -/
theorem scanInt_decRepr (n : Nat) : scanInt (decRepr n) = some (n : Int) := by
  unfold scanInt
  rw [dropWhile_ws_decRepr]
  cases hd : decRepr n with
  | nil => exact absurd hd (decRepr_ne_nil n)
  | cons c cs =>
    obtain ⟨h45, h43⟩ := decRepr_head_not_sign n c cs hd
    simp only [if_neg h45, if_neg h43]
    rw [← hd, takeDigits_all _ (decRepr_digits n)]
    simp only [List.isEmpty_eq_true]
    rw [if_neg (hd ▸ List.cons_ne_nil c cs)]
    rw [digitsToNat_decRepr]

/-- Scanning the `%d` rendering of an integer yields it back. -/
theorem scanInt_intRepr (v : Int) : scanInt (intRepr v) = some v := by
  unfold intRepr
  by_cases hv : v < 0
  · rw [if_pos hv]
    unfold scanInt
    rw [List.dropWhile_cons]
    simp only [show (Char.ofNat 45).isWhitespace = false from rfl, Bool.false_eq_true,
      if_false, if_pos rfl]
    rw [takeDigits_all _ (decRepr_digits _)]
    simp only [List.isEmpty_eq_true]
    rw [if_neg (decRepr_ne_nil _), digitsToNat_decRepr]
    show some (-(((-v).toNat : Nat) : Int)) = some v
    congr 1
    omega
  · rw [if_neg hv, scanInt_decRepr]
    congr 1
    omega

/-- `sscanf("%du")` applied to the `%d` rendering of an integer. -/
theorem sscanf_d_intRepr (v : Int) :
    sscanf_d (String.mk (intRepr v)) = some v := scanInt_intRepr v

/-! ## Projection lemmas for the state transformers. -/

theorem handler_ledOn (now : Timespec) (s : MeterState) :
    (tomasgpio_irq_handler now s).ledOn = !s.ledOn := rfl

theorem handler_ledLine (now : Timespec) (s : MeterState) :
    (tomasgpio_irq_handler now s).ledLine = !s.ledOn := rfl

theorem handler_numWattHours (now : Timespec) (s : MeterState) :
    (tomasgpio_irq_handler now s).numWattHours
      = wrap32 (s.numWattHours + 1) := rfl

theorem handler_ts_last (now : Timespec) (s : MeterState) :
    (tomasgpio_irq_handler now s).ts_last = now := rfl

theorem handler_ts_diff (now : Timespec) (s : MeterState) :
    (tomasgpio_irq_handler now s).ts_diff = timespec_sub now s.ts_last := rfl

theorem handler_isDebounce (now : Timespec) (s : MeterState) :
    (tomasgpio_irq_handler now s).isDebounce = s.isDebounce := rfl

theorem handler_debounceWindow (now : Timespec) (s : MeterState) :
    (tomasgpio_irq_handler now s).debounceWindow = s.debounceWindow := rfl

/-- `isDebounce_store` touches only `isDebounce` and the debounce window. -/
theorem isDebounce_store_frame (temp0 : Int) (buf : String) (count : Nat)
    (s : MeterState) :
    (isDebounce_store temp0 buf count s).1.ledOn = s.ledOn ∧
    (isDebounce_store temp0 buf count s).1.numWattHours = s.numWattHours ∧
    (isDebounce_store temp0 buf count s).1.ts_last = s.ts_last ∧
    (isDebounce_store temp0 buf count s).1.ts_diff = s.ts_diff ∧
    (isDebounce_store temp0 buf count s).1.ledLine = s.ledLine := by
  simp only [isDebounce_store]
  split <;> exact ⟨rfl, rfl, rfl, rfl, rfl⟩

/-- `numWattHours_store` touches only `numWattHours`. -/
theorem numWattHours_store_frame (buf : String) (count : Nat) (s : MeterState) :
    (numWattHours_store buf count s).1.ledOn = s.ledOn ∧
    (numWattHours_store buf count s).1.isDebounce = s.isDebounce ∧
    (numWattHours_store buf count s).1.ts_last = s.ts_last ∧
    (numWattHours_store buf count s).1.ts_diff = s.ts_diff ∧
    (numWattHours_store buf count s).1.ledLine = s.ledLine ∧
    (numWattHours_store buf count s).1.debounceWindow = s.debounceWindow := by
  unfold numWattHours_store
  cases sscanf_d buf <;> exact ⟨rfl, rfl, rfl, rfl, rfl, rfl⟩

/-! ## The claims. -/

/-- C1: on every pulse-handler invocation with clock reading `now` over a
pre-state `s` (pulse count in `int` range and not at `INT_MAX`), the
post-state has `lastInterval = now - lastTimestamp_pre` (as an exact
nanosecond value), `lastTimestamp = now`, `outputMirror` negated and
`pulseCount` incremented by one, while `debounceEnabled` (the only other
MeterState field) is unchanged. -/
theorem C1_pulse_handler_effect (now : Timespec) (s : MeterState)
    (h : Int32Range s.numWattHours) (hm : s.numWattHours ≠ 2147483647) :
    tsVal (tomasgpio_irq_handler now s).ts_diff
        = tsVal now - tsVal s.ts_last ∧
    (tomasgpio_irq_handler now s).ts_last = now ∧
    (tomasgpio_irq_handler now s).ledOn = !s.ledOn ∧
    (tomasgpio_irq_handler now s).numWattHours = s.numWattHours + 1 ∧
    (tomasgpio_irq_handler now s).isDebounce = s.isDebounce := by
  refine ⟨?_, rfl, rfl, ?_, rfl⟩
  · rw [handler_ts_diff, tsVal_timespec_sub]
  · rw [handler_numWattHours]
    apply wrap32_eq_self
    simp only [Int32Range] at *
    omega

/-- Witness for C1 at a concrete invocation. -/
theorem C1_pulse_handler_effect_witness :
    Int32Range (tomasMeter_init ⟨1, 0⟩).numWattHours ∧
    (tomasMeter_init ⟨1, 0⟩).numWattHours ≠ 2147483647 ∧
    (tsVal (tomasgpio_irq_handler ⟨5, 100⟩ (tomasMeter_init ⟨1, 0⟩)).ts_diff
        = tsVal ⟨5, 100⟩ - tsVal (tomasMeter_init ⟨1, 0⟩).ts_last ∧
     (tomasgpio_irq_handler ⟨5, 100⟩ (tomasMeter_init ⟨1, 0⟩)).ts_last
        = ⟨5, 100⟩ ∧
     (tomasgpio_irq_handler ⟨5, 100⟩ (tomasMeter_init ⟨1, 0⟩)).ledOn
        = !(tomasMeter_init ⟨1, 0⟩).ledOn ∧
     (tomasgpio_irq_handler ⟨5, 100⟩ (tomasMeter_init ⟨1, 0⟩)).numWattHours
        = (tomasMeter_init ⟨1, 0⟩).numWattHours + 1 ∧
     (tomasgpio_irq_handler ⟨5, 100⟩ (tomasMeter_init ⟨1, 0⟩)).isDebounce
        = (tomasMeter_init ⟨1, 0⟩).isDebounce) :=
  ⟨by decide, by decide,
   C1_pulse_handler_effect ⟨5, 100⟩ (tomasMeter_init ⟨1, 0⟩)
     (by decide) (by decide)⟩

/-- C4: for two consecutive accepted pulses with clock readings `t1 ≤ t2`,
the interval after the second invocation is exactly `t2 - t1` and is never
negative (both components non-negative). -/
theorem C4_interval_exact_nonneg (s0 : MeterState) (t1 t2 : Timespec)
    (hle : tsVal t1 ≤ tsVal t2) :
    tsVal (tomasgpio_irq_handler t2 (tomasgpio_irq_handler t1 s0)).ts_diff
        = tsVal t2 - tsVal t1 ∧
    0 ≤ (tomasgpio_irq_handler t2 (tomasgpio_irq_handler t1 s0)).ts_diff.tv_sec ∧
    0 ≤ (tomasgpio_irq_handler t2 (tomasgpio_irq_handler t1 s0)).ts_diff.tv_nsec := by
  have hd : (tomasgpio_irq_handler t2 (tomasgpio_irq_handler t1 s0)).ts_diff
      = timespec_sub t2 t1 := by
    rw [handler_ts_diff, handler_ts_last]
  have hv := tsVal_timespec_sub t2 t1
  have hn := timespec_sub_normalized t2 t1
  simp only [Timespec.Normalized, NSEC_PER_SEC] at hn
  simp only [tsVal, NSEC_PER_SEC] at hv hle ⊢
  rw [hd] at *
  refine ⟨hv, ?_, hn.1⟩
  omega

/-- Witness for C4 at two concrete pulses. -/
theorem C4_interval_exact_nonneg_witness :
    tsVal ⟨1, 500000000⟩ ≤ tsVal ⟨3, 0⟩ ∧
    (tsVal (tomasgpio_irq_handler ⟨3, 0⟩
        (tomasgpio_irq_handler ⟨1, 500000000⟩ (tomasMeter_init ⟨0, 0⟩))).ts_diff
        = tsVal ⟨3, 0⟩ - tsVal ⟨1, 500000000⟩ ∧
     0 ≤ (tomasgpio_irq_handler ⟨3, 0⟩
        (tomasgpio_irq_handler ⟨1, 500000000⟩
          (tomasMeter_init ⟨0, 0⟩))).ts_diff.tv_sec ∧
     0 ≤ (tomasgpio_irq_handler ⟨3, 0⟩
        (tomasgpio_irq_handler ⟨1, 500000000⟩
          (tomasMeter_init ⟨0, 0⟩))).ts_diff.tv_nsec) :=
  ⟨by decide,
   C4_interval_exact_nonneg (tomasMeter_init ⟨0, 0⟩) ⟨1, 500000000⟩ ⟨3, 0⟩
     (by decide)⟩

/-- C5: writing a pulse-count value (any buffer that renders an in-range
integer `v` the way `%d` prints it) sets `pulseCount` to `v` and leaves
`lastTimestamp`, `lastInterval` and the strings returned by the timestamp
and interval readers unchanged. -/
theorem C5_writePulseCount_frame (v : Int) (count : Nat) (s : MeterState)
    (_hv : Int32Range v) :
    (numWattHours_store (String.mk (intRepr v)) count s).1.numWattHours = v ∧
    (numWattHours_store (String.mk (intRepr v)) count s).1.ts_last
        = s.ts_last ∧
    (numWattHours_store (String.mk (intRepr v)) count s).1.ts_diff
        = s.ts_diff ∧
    lastTime_show (numWattHours_store (String.mk (intRepr v)) count s).1
        = lastTime_show s ∧
    diffTime_show (numWattHours_store (String.mk (intRepr v)) count s).1
        = diffTime_show s := by
  unfold numWattHours_store
  rw [sscanf_d_intRepr]
  exact ⟨rfl, rfl, rfl, rfl, rfl⟩

/-- Witness for C5 at a concrete write. -/
theorem C5_writePulseCount_frame_witness :
    Int32Range 7 ∧
    ((numWattHours_store (String.mk (intRepr 7)) 2
        (tomasMeter_init ⟨9, 4⟩)).1.numWattHours = 7 ∧
     (numWattHours_store (String.mk (intRepr 7)) 2
        (tomasMeter_init ⟨9, 4⟩)).1.ts_last = (tomasMeter_init ⟨9, 4⟩).ts_last ∧
     (numWattHours_store (String.mk (intRepr 7)) 2
        (tomasMeter_init ⟨9, 4⟩)).1.ts_diff = (tomasMeter_init ⟨9, 4⟩).ts_diff ∧
     lastTime_show (numWattHours_store (String.mk (intRepr 7)) 2
        (tomasMeter_init ⟨9, 4⟩)).1 = lastTime_show (tomasMeter_init ⟨9, 4⟩) ∧
     diffTime_show (numWattHours_store (String.mk (intRepr 7)) 2
        (tomasMeter_init ⟨9, 4⟩)).1 = diffTime_show (tomasMeter_init ⟨9, 4⟩)) :=
  ⟨by decide,
   C5_writePulseCount_frame 7 2 (tomasMeter_init ⟨9, 4⟩) (by decide)⟩

/-- C9: writing a value `v` (as its `%d` rendering) and then reading the
pulse count with no intervening pulse yields exactly `v`: the stored field
equals `v` and the reader prints exactly `v`. -/
theorem C9_write_then_read (v : Int) (count : Nat) (s : MeterState)
    (_hv : Int32Range v) :
    (numWattHours_store (String.mk (intRepr v)) count s).1.numWattHours = v ∧
    numWattHours_show (numWattHours_store (String.mk (intRepr v)) count s).1
        = String.mk (intRepr v) ++ "\n" := by
  unfold numWattHours_store numWattHours_show
  rw [sscanf_d_intRepr]
  exact ⟨rfl, rfl⟩

/-- Witness for C9 at a concrete value. -/
theorem C9_write_then_read_witness :
    Int32Range 42 ∧
    ((numWattHours_store (String.mk (intRepr 42)) 3
        (tomasMeter_init ⟨0, 0⟩)).1.numWattHours = 42 ∧
     numWattHours_show (numWattHours_store (String.mk (intRepr 42)) 3
        (tomasMeter_init ⟨0, 0⟩)).1 = String.mk (intRepr 42) ++ "\n") :=
  ⟨by decide, C9_write_then_read 42 3 (tomasMeter_init ⟨0, 0⟩) (by decide)⟩

/-- C10: immediately after a successful module init (with any clock reading)
and before any pulse, the pulse count is 0 while the output mirror is true,
the output line is driven on, and the mirror reader prints `1`. -/
theorem C10_initial_state (now : Timespec) :
    (tomasMeter_init now).numWattHours = 0 ∧
    (tomasMeter_init now).ledOn = true ∧
    (tomasMeter_init now).ledLine = true ∧
    ledOn_show (tomasMeter_init now) = "1\n" :=
  ⟨rfl, rfl, rfl, by
    show String.mk (intRepr 1) ++ "\n" = "1\n"
    decide⟩

/-- A pulse flips the parity of the stored count, also at the wrap. -/
theorem wrap32_succ_parity (n : Int) :
    decide (wrap32 (n + 1) % 2 = 0) = !decide (n % 2 = 0) := by
  by_cases h : n % 2 = 0
  · have h2 : ¬ wrap32 (n + 1) % 2 = 0 := by simp only [wrap32]; omega
    simp [h, h2]
  · have h2 : wrap32 (n + 1) % 2 = 0 := by simp only [wrap32]; omega
    simp [h, h2]

/-- C2 is false as stated: no fixed even/odd-to-state mapping relates
`outputMirror` to the parity of `pulseCount` across all reachable states
once `writePulseCount` interleavings are allowed, because a count write
(here the buffer `"1"` right after init) changes the count parity without
touching the mirror. -/
theorem C2_counterexample :
    ¬ ∃ f : Bool → Bool, f true ≠ f false ∧
      ∀ s, Reach s → s.ledOn = f (decide (s.numWattHours % 2 = 0)) := by
  rintro ⟨f, hf, hall⟩
  have h0 := hall (tomasMeter_init ⟨0, 0⟩) (Reach.init ⟨0, 0⟩)
  have h1 := hall (numWattHours_store "1" 1 (tomasMeter_init ⟨0, 0⟩)).1
    (Reach.writeCount _ "1" 1 (Reach.init ⟨0, 0⟩))
  have e0a : (tomasMeter_init ⟨0, 0⟩).ledOn = true := rfl
  have e0b : (tomasMeter_init ⟨0, 0⟩).numWattHours = 0 := rfl
  have e1a : (numWattHours_store "1" 1 (tomasMeter_init ⟨0, 0⟩)).1.ledOn
      = true := by decide
  have e1b : (numWattHours_store "1" 1 (tomasMeter_init ⟨0, 0⟩)).1.numWattHours
      = 1 := by decide
  rw [e0a, e0b] at h0
  rw [e1a, e1b] at h1
  rw [show decide ((0 : Int) % 2 = 0) = true from rfl] at h0
  rw [show decide ((1 : Int) % 2 = 0) = false from rfl] at h1
  exact hf (h0 ▸ h1 ▸ rfl)

/-- C2 (amended): in every state reachable from module start by pulse
handler invocations, attribute reads and debounce writes -- that is,
excluding `writePulseCount` -- `outputMirror` equals the parity of
`pulseCount` under the mapping fixed at start (even count, mirror on). -/
theorem C2_parity_invariant (s : MeterState) (h : ReachNC s) :
    s.ledOn = decide (s.numWattHours % 2 = 0) := by
  induction h with
  | init now => rfl
  | pulse s now hr ih =>
    rw [handler_ledOn, handler_numWattHours, wrap32_succ_parity, ih]
  | writeDebounce s temp0 buf count hr ih =>
    rw [(isDebounce_store_frame temp0 buf count s).1,
      (isDebounce_store_frame temp0 buf count s).2.1, ih]

/-- Witness for the amended C2 at a concrete reachable state. -/
theorem C2_parity_invariant_witness :
    ReachNC (tomasgpio_irq_handler ⟨4, 2⟩ (tomasMeter_init ⟨0, 0⟩)) ∧
    (tomasgpio_irq_handler ⟨4, 2⟩ (tomasMeter_init ⟨0, 0⟩)).ledOn
      = decide ((tomasgpio_irq_handler ⟨4, 2⟩
          (tomasMeter_init ⟨0, 0⟩)).numWattHours % 2 = 0) :=
  ⟨ReachNC.pulse _ ⟨4, 2⟩ (ReachNC.init ⟨0, 0⟩),
   C2_parity_invariant _ (ReachNC.pulse _ ⟨4, 2⟩ (ReachNC.init ⟨0, 0⟩))⟩

/-- C6: behaviour of the two store accessors at the malformed buffer
`"abc"`.  The count store leaves the state unchanged but still returns
`count` (success -- the rejection is never reported to the caller); the
debounce store copies an uninitialized stack variable (here 0) into
`isDebounce`, changing it from its pre-state value `true` to `false`, and
also returns `count`. -/
theorem C6_malformed_write_eval :
    sscanf_d "abc" = none ∧
    (numWattHours_store "abc" 3 (tomasMeter_init ⟨0, 0⟩)).1
        = tomasMeter_init ⟨0, 0⟩ ∧
    (numWattHours_store "abc" 3 (tomasMeter_init ⟨0, 0⟩)).2 = 3 ∧
    (tomasMeter_init ⟨0, 0⟩).isDebounce = true ∧
    (isDebounce_store 0 "abc" 3 (tomasMeter_init ⟨0, 0⟩)).1.isDebounce
        = false ∧
    (isDebounce_store 0 "abc" 3 (tomasMeter_init ⟨0, 0⟩)).2 = 3 := by
  refine ⟨by decide, by decide, by decide, rfl, by decide, by decide⟩

/-- C7 is false as stated: `pulseCount` is a signed 32-bit `int`; writing
`INT_MAX` and accepting one more pulse makes the count wrap to the negative
value `INT_MIN`, so it is not an unsigned integer and the wrapped value is
a decrease, not the unsigned residue `2^31`. -/
theorem C7_counterexample :
    (numWattHours_store "2147483647" 10
        (tomasMeter_init ⟨0, 0⟩)).1.numWattHours = 2147483647 ∧
    (tomasgpio_irq_handler ⟨5, 0⟩ (numWattHours_store "2147483647" 10
        (tomasMeter_init ⟨0, 0⟩)).1).numWattHours = -2147483648 := by
  constructor <;> decide

/-- C7 (amended): `pulseCount` is a signed 32-bit integer; a pulse-handler
increment from any in-range count stays in range, adds exactly one below
`INT_MAX`, and at `INT_MAX` silently wraps two's-complement to `INT_MIN`
(negative) rather than failing or saturating. -/
theorem C7_pulseCount_wrap (now : Timespec) (s : MeterState)
    (h : Int32Range s.numWattHours) :
    Int32Range (tomasgpio_irq_handler now s).numWattHours ∧
    (s.numWattHours ≠ 2147483647 →
      (tomasgpio_irq_handler now s).numWattHours = s.numWattHours + 1) ∧
    (s.numWattHours = 2147483647 →
      (tomasgpio_irq_handler now s).numWattHours = -2147483648) := by
  rw [handler_numWattHours]
  refine ⟨wrap32_mem_range _, ?_, ?_⟩ <;> intro hc <;>
    simp only [wrap32, Int32Range] at * <;> omega

/-- Witness for the amended C7 at a concrete state. -/
theorem C7_pulseCount_wrap_witness :
    Int32Range (tomasMeter_init ⟨0, 0⟩).numWattHours ∧
    (Int32Range (tomasgpio_irq_handler ⟨2, 3⟩
        (tomasMeter_init ⟨0, 0⟩)).numWattHours ∧
     ((tomasMeter_init ⟨0, 0⟩).numWattHours ≠ 2147483647 →
       (tomasgpio_irq_handler ⟨2, 3⟩ (tomasMeter_init ⟨0, 0⟩)).numWattHours
         = (tomasMeter_init ⟨0, 0⟩).numWattHours + 1) ∧
     ((tomasMeter_init ⟨0, 0⟩).numWattHours = 2147483647 →
       (tomasgpio_irq_handler ⟨2, 3⟩ (tomasMeter_init ⟨0, 0⟩)).numWattHours
         = -2147483648)) :=
  ⟨by decide, C7_pulseCount_wrap ⟨2, 3⟩ (tomasMeter_init ⟨0, 0⟩) (by decide)⟩

/-- C8 is false as stated: the reader does not return exactly the
`HH:MM:SS:NNNNNNNNN` field -- the format string appends a space and a
newline after it. -/
theorem C8_counterexample :
    lastTime_show (tomasMeter_init ⟨0, 0⟩) ≠ specTimestamp 0 0 := by
  decide

/-- C8 (amended): for every non-negative `lastTimestamp`, the timestamp
reader returns exactly the spec field `HH:MM:SS:NNNNNNNNN` -- `HH` is
`(seconds/3600) mod 24`, `MM` minutes, `SS` seconds, each zero-padded to
two digits, nanoseconds zero-padded to nine digits -- followed by one
space and one newline. -/
theorem C8_lastTime_format (s : MeterState) (a b : Nat)
    (h : s.ts_last = ⟨(a : Int), (b : Int)⟩) :
    lastTime_show s = specTimestamp a b ++ " \n" := by
  unfold lastTime_show specTimestamp
  rw [h]
  rfl

/-- Witness for the amended C8 at a concrete timestamp. -/
theorem C8_lastTime_format_witness :
    (tomasMeter_init ⟨7265, 123⟩).ts_last
        = ⟨((7265 : Nat) : Int), ((123 : Nat) : Int)⟩ ∧
    lastTime_show (tomasMeter_init ⟨7265, 123⟩)
        = specTimestamp 7265 123 ++ " \n" :=
  ⟨rfl, C8_lastTime_format (tomasMeter_init ⟨7265, 123⟩) 7265 123 rfl⟩
